import Mathlib

/-!
Shallow embedding of `backend/core/models.py`: the persistent data model of a
volunteer-matching service (users, PIN preferences, service requests with
generated identifiers, engagement logs, matches, messages, financial claims
with items and receipts, disputes, OTP tokens).

Tables are lists of rows; mutating operations take a database state and
return the (possibly unchanged) new state together with an `Except` result.
Timestamps are integer seconds; monetary amounts are integer cents
(the source stores `DecimalField(max_digits=10, decimal_places=2)`).
-/

namespace Models

/-! ### Decimal rendering, as used by Python `f"{count:05d}"` and `str(year)` -/

/-- Little-endian decimal digits of `n`, fuel-driven so that it is structural
and kernel-evaluable.  `decDigitsAux fuel n` agrees with `Nat.digits 10 n`
whenever `n ≤ fuel`. -/
def decDigitsAux : Nat → Nat → List Nat
  | _, 0 => []
  | 0, _ + 1 => []
  | fuel + 1, n + 1 => (n + 1) % 10 :: decDigitsAux fuel ((n + 1) / 10)

/-- Little-endian decimal digits of `n`. -/
def decDigits (n : Nat) : List Nat := decDigitsAux n n

/-- Big-endian decimal digit characters of `n` (empty for `0`). -/
def digitsStr (n : Nat) : List Char := (decDigits n).reverse.map Nat.digitChar

/-- Decimal rendering of `n`, matching Python `str(n)` for a natural number. -/
def natStr (n : Nat) : String :=
  if n = 0 then "0" else String.mk (digitsStr n)

/-- Character list of Python `f"{n:05d}"`: decimal digits of `n` left-padded
with `'0'` to at least five characters. -/
def pad5Chars (n : Nat) : List Char :=
  List.replicate (5 - (digitsStr n).length) '0' ++ digitsStr n

/-- Python `f"{n:05d}"` as a string. -/
def pad5 (n : Nat) : String := String.mk (pad5Chars n)

/-- Numeric value of a decimal digit character. -/
def charVal (c : Char) : Nat := c.toNat - 48

/-- Reads a run of decimal digit characters back into a number
(most-significant first); leading zeros are ignored. -/
def decodeChars (l : List Char) : Nat :=
  l.foldl (fun acc c => acc * 10 + charVal c) 0

/-- The numeric suffix of an identifier: the digits after the first `k`
characters, read as a decimal number. -/
def suffixNat (k : Nat) (s : String) : Nat := decodeChars (s.data.drop k)

/-- Python `s.startswith(pat)` on character lists: `listStarts pat s`. -/
def listStarts : List Char → List Char → Bool
  | [], _ => true
  | _ :: _, [] => false
  | p :: ps, c :: cs => p == c && listStarts ps cs

/-- Python `s.startswith(pat)` (the ORM lookup `request_id__startswith`). -/
def strStarts (s pat : String) : Bool := listStarts pat.data s.data

/-! ### Rows (one structure per model class; `pk` is the database primary key,
foreign keys hold the `pk` of the referenced row) -/

/-- Errors surfaced by the data layer (§7 of the spec): single-instance /
unique-column violations and validator failures. -/
inductive DBError where
  | UniquenessError
  | ValidationError
deriving DecidableEq

/-- Decidable equality of operation results, so that concrete runs can be
checked by `decide`. -/
instance {ε α : Type} [DecidableEq ε] [DecidableEq α] : DecidableEq (Except ε α)
  | Except.ok a, Except.ok b =>
    if h : a = b then Decidable.isTrue (by rw [h])
    else Decidable.isFalse (by intro hc; cases hc; exact h rfl)
  | Except.ok _, Except.error _ => Decidable.isFalse (by intro hc; cases hc)
  | Except.error _, Except.ok _ => Decidable.isFalse (by intro hc; cases hc)
  | Except.error e, Except.error f =>
    if h : e = f then Decidable.isTrue (by rw [h])
    else Decidable.isFalse (by intro hc; cases hc; exact h rfl)

/-- `ServiceRequest` row. -/
structure ServiceRequest where
  pk : Nat
  request_id : String
  pin : Nat
  service_type : String
  appointment_date : Int
  pickup_location : String
  service_location : String
  description : String
  status : String
  date_created : Int
  views : Nat
  shortlists : Nat
deriving DecidableEq

/-- `PINPreference` row (`user` is a `OneToOneField`). -/
structure PINPreference where
  pk : Nat
  user : Nat
  preferred_language : String
  preferred_volunteer_gender : String
deriving DecidableEq

/-- `RequestView` row. -/
structure RequestView where
  pk : Nat
  request : Nat
  viewer : Nat
  viewed_at : Int
deriving DecidableEq

/-- `Shortlist` row. -/
structure Shortlist where
  pk : Nat
  request : Nat
  csr : Nat
  created_at : Int
deriving DecidableEq

/-- `Match` row (`request` is a `OneToOneField`; `accepted` is the nullable
tri-state boolean). -/
structure Match where
  pk : Nat
  request : Nat
  cv : Nat
  offered_at : Int
  accepted : Option Bool
  accepted_at : Option Int
deriving DecidableEq

/-- `Message` row. -/
structure Message where
  pk : Nat
  request : Nat
  sender : Nat
  text : String
  sent_at : Int
deriving DecidableEq

/-- `FinancialClaim` row. -/
structure FinancialClaim where
  pk : Nat
  request : Nat
  cv : Nat
  approved_by_pin : Bool
  approved_by_csr : Bool
  submitted_at : Int
deriving DecidableEq

/-- `ClaimItem` row; `total_amount` is stored in cents
(`DecimalField(max_digits=10, decimal_places=2)`). -/
structure ClaimItem where
  pk : Nat
  claim : Nat
  category : String
  date_of_expense : Int
  total_amount : Int
  payment_method : String
  description : String
deriving DecidableEq

/-- `Receipt` row (`image` is the stored file path). -/
structure Receipt where
  pk : Nat
  item : Nat
  image : String
  uploaded_at : Int
deriving DecidableEq

/-- `Dispute` row. -/
structure Dispute where
  pk : Nat
  request : Nat
  pin : Nat
  incorrect_amount : Bool
  incorrect_item : Bool
  incorrect_receipt : Bool
  description : String
  created_at : Int
deriving DecidableEq

/-- `OTPToken` row (`created_at` in integer seconds). -/
structure OTPToken where
  pk : Nat
  user : Nat
  code : String
  created_at : Int
  is_used : Bool
deriving DecidableEq

/-- Database state: one list per table plus the next primary key to assign. -/
structure DB where
  nextPk : Nat
  requests : List ServiceRequest
  pinPrefs : List PINPreference
  viewLogs : List RequestView
  shortlistLogs : List Shortlist
  matchRows : List Match
  messageRows : List Message
  claimRows : List FinancialClaim
  itemRows : List ClaimItem
  receiptRows : List Receipt
  disputeRows : List Dispute
deriving DecidableEq

/-- The empty database (primary keys are assigned from 1, as in the source's
backend). -/
def emptyDB : DB :=
  { nextPk := 1, requests := [], pinPrefs := [], viewLogs := [],
    shortlistLogs := [], matchRows := [], messageRows := [], claimRows := [],
    itemRows := [], receiptRows := [], disputeRows := [] }

/-! ### Status and service-type constants -/

def STATUS_PENDING : String := "PENDING"

def STATUS_ACTIVE : String := "ACTIVE"

def STATUS_COMPLETED : String := "COMPLETED"

/-! ### `ServiceRequest.save` and friends -/

/-- The leading part `f"RQ-{now.year}-"` of a generated identifier. -/
def rqPfx (year : Nat) : String := "RQ-" ++ natStr year ++ "-"

/-- The identifier allocated by `ServiceRequest.save` for the current year:
count the stored requests whose `request_id` starts with this year's leading
part, add one, and zero-pad to five digits. -/
def genRequestId (year : Nat) (tbl : List ServiceRequest) : String :=
  rqPfx year ++
    pad5 ((tbl.filter (fun r => strStarts r.request_id (rqPfx year))).length + 1)

/-- `ServiceRequest.save`: fill in `request_id` when it is empty, then write
the row.  The write enforces the `unique=True` constraint on `request_id`;
a violation leaves the database unchanged and reports `UniquenessError`. -/
def requestSave (year : Nat) (row : ServiceRequest) (db : DB) :
    Except DBError ServiceRequest × DB :=
  let row1 := if row.request_id = ""
    then { row with request_id := genRequestId year db.requests } else row
  if db.requests.any (fun r => r.pk == row1.pk) then
    if db.requests.any (fun r => r.pk != row1.pk && r.request_id == row1.request_id) then
      (Except.error DBError.UniquenessError, db)
    else
      (Except.ok row1,
        { db with requests := db.requests.map (fun r => if r.pk == row1.pk then row1 else r) })
  else
    if db.requests.any (fun r => r.request_id == row1.request_id) then
      (Except.error DBError.UniquenessError, db)
    else
      (Except.ok row1, { db with requests := db.requests ++ [row1] })

/-- The keyword arguments of `ServiceRequest.objects.create(...)`. -/
structure CreateParams where
  now : Int
  pin : Nat
  service_type : String
  appointment_date : Int
  pickup_location : String
  service_location : String
  description : String
deriving DecidableEq

/-- The in-memory row built by `ServiceRequest.objects.create(...)` before
`save` runs: `request_id` still empty, `status` at its `PENDING` default,
`date_created` set by `auto_now_add`, both counters at their default 0. -/
def newRequest (pk : Nat) (p : CreateParams) : ServiceRequest :=
  { pk := pk, request_id := "", pin := p.pin, service_type := p.service_type,
    appointment_date := p.appointment_date,
    pickup_location := p.pickup_location, service_location := p.service_location,
    description := p.description, status := STATUS_PENDING,
    date_created := p.now, views := 0, shortlists := 0 }

/-- `ServiceRequest.objects.create(...)`: build the row with a fresh primary
key and run `save`.  The key counter advances only on a successful insert. -/
def createRequest (year : Nat) (p : CreateParams) (db : DB) :
    Except DBError ServiceRequest × DB :=
  match requestSave year (newRequest db.nextPk p) db with
  | (Except.ok r, db') => (Except.ok r, { db' with nextPk := db.nextPk + 1 })
  | (Except.error e, db') => (Except.error e, db')

/-- `ServiceRequest.duplicate(new_appointment_dt)`: a fresh `create` carrying
over `pin`, `service_type`, the two locations and the description, with the
given new appointment date. -/
def duplicate (year : Nat) (now : Int) (r : ServiceRequest) (newAppt : Int)
    (db : DB) : Except DBError ServiceRequest × DB :=
  createRequest year
    { now := now, pin := r.pin, service_type := r.service_type,
      appointment_date := newAppt, pickup_location := r.pickup_location,
      service_location := r.service_location, description := r.description } db

/-- Sequential (non-concurrent) creations within one calendar year: run
`createRequest` once per parameter record, stopping at the first failure. -/
def createMany (year : Nat) : List CreateParams → DB → Option DB
  | [], db => some db
  | p :: rest, db =>
    match createRequest year p db with
    | (Except.ok _, db') => createMany year rest db'
    | (Except.error _, _) => none

/-- Deleting a `ServiceRequest` row: every table with `on_delete=CASCADE`
pointing at the request loses its matching rows; `ClaimItem`s of the removed
claims and `Receipt`s of the removed items cascade in turn. -/
def deleteRequest (rq : Nat) (db : DB) : DB :=
  let removedClaims := db.claimRows.filter (fun c => c.request == rq)
  let removedItems :=
    db.itemRows.filter (fun it => removedClaims.any (fun c => c.pk == it.claim))
  { db with
    requests := db.requests.filter (fun r => !(r.pk == rq)),
    viewLogs := db.viewLogs.filter (fun v => !(v.request == rq)),
    shortlistLogs := db.shortlistLogs.filter (fun s => !(s.request == rq)),
    matchRows := db.matchRows.filter (fun m => !(m.request == rq)),
    messageRows := db.messageRows.filter (fun m => !(m.request == rq)),
    claimRows := db.claimRows.filter (fun c => !(c.request == rq)),
    itemRows :=
      db.itemRows.filter (fun it => !(removedClaims.any (fun c => c.pk == it.claim))),
    receiptRows :=
      db.receiptRows.filter (fun rc => !(removedItems.any (fun it => it.pk == rc.item))),
    disputeRows := db.disputeRows.filter (fun d => !(d.request == rq)) }

/-! ### `PINPreference` and `Match` creation (one-to-one constraints) -/

/-- Creating a `PINPreference`: the `OneToOneField` on `user` makes a second
row for the same user a uniqueness violation; the database is unchanged on
failure. -/
def createPINPreference (u : Nat) (lang gender : String) (db : DB) :
    Except DBError PINPreference × DB :=
  if db.pinPrefs.any (fun p => p.user == u) then
    (Except.error DBError.UniquenessError, db)
  else
    let row : PINPreference :=
      { pk := db.nextPk, user := u, preferred_language := lang,
        preferred_volunteer_gender := gender }
    (Except.ok row,
      { db with nextPk := db.nextPk + 1, pinPrefs := db.pinPrefs ++ [row] })

/-- Creating a `Match`: the `OneToOneField` on `request` makes a second row
for the same request a uniqueness violation; the database is unchanged on
failure.  `offered_at` defaults to the current time, `accepted` to null. -/
def createMatch (rq cv : Nat) (now : Int) (db : DB) :
    Except DBError Match × DB :=
  if db.matchRows.any (fun m => m.request == rq) then
    (Except.error DBError.UniquenessError, db)
  else
    let row : Match :=
      { pk := db.nextPk, request := rq, cv := cv, offered_at := now,
        accepted := none, accepted_at := none }
    (Except.ok row,
      { db with nextPk := db.nextPk + 1, matchRows := db.matchRows ++ [row] })

/-! ### `ClaimItem.total_amount` validation and `OTPToken.is_expired` -/

/-- Digit count of the stored decimal `v/100` as Django's `DecimalValidator`
counts it: at least the two forced decimal places. -/
def decimalDigitsCount (v : Int) : Nat := max (decDigits v.natAbs).length 2

/-- Field validation of `ClaimItem.total_amount` (`v` in cents):
`MinValueValidator(0)` rejects negative values, and the
`DecimalField(max_digits=10, decimal_places=2)` shape check rejects values
with more than ten digits. -/
def validTotalAmount (v : Int) : Bool :=
  decide (0 ≤ v) && decide (decimalDigitsCount v ≤ 10)

/-- `OTPToken.is_expired`: the current time strictly exceeds
`created_at + timedelta(minutes=10)`, i.e. `created_at + 600` seconds. -/
def OTPToken.is_expired (t : OTPToken) (now : Int) : Bool :=
  decide (now > t.created_at + 600)

/-! ### Concrete data for the executable scenarios -/

/-- Creation parameters of a first concrete request. -/
def pA : CreateParams :=
  { now := 10, pin := 7, service_type := "ESCORT", appointment_date := 100,
    pickup_location := "A", service_location := "B", description := "" }

/-- Creation parameters of a second concrete request. -/
def pB : CreateParams := { pA with now := 11, appointment_date := 101 }

/-- Creation parameters of a third concrete request. -/
def pC : CreateParams := { pA with now := 12, appointment_date := 102 }

/-- State after creating the first request of 2025 in an empty database. -/
def db9a : DB := (createRequest 2025 pA emptyDB).2

/-- State after creating a second request the same year. -/
def db9b : DB := (createRequest 2025 pB db9a).2

/-- State after deleting the first of the two requests. -/
def db9c : DB := deleteRequest 1 db9b

/-- A stored request used as a duplication source. -/
def rqA : ServiceRequest :=
  { pk := 1, request_id := "RQ-2025-00001", pin := 7, service_type := "ESCORT",
    appointment_date := 100, pickup_location := "A", service_location := "B",
    description := "d", status := "ACTIVE", date_created := 5, views := 3,
    shortlists := 2 }

/-- A database holding just `rqA`. -/
def dbA : DB := { emptyDB with nextPk := 2, requests := [rqA] }

/-- The copy produced by `duplicate 2025 50 rqA 200 dbA`. -/
def dupA : ServiceRequest :=
  { pk := 2, request_id := "RQ-2025-00002", pin := 7, service_type := "ESCORT",
    appointment_date := 200, pickup_location := "A", service_location := "B",
    description := "d", status := "PENDING", date_created := 50, views := 0,
    shortlists := 0 }

/-- The database state after that duplication. -/
def dbA' : DB := { dbA with nextPk := 3, requests := [rqA, dupA] }

/-- A database where `rqA` has engagement child rows. -/
def dbB : DB :=
  { emptyDB with
    nextPk := 4, requests := [rqA],
    viewLogs := [{ pk := 2, request := 1, viewer := 9, viewed_at := 1 }],
    shortlistLogs := [{ pk := 5, request := 1, csr := 9, created_at := 2 }],
    matchRows := [{ pk := 3, request := 1, cv := 8, offered_at := 2,
                    accepted := none, accepted_at := none }] }

/-- The copy produced by `duplicate 2025 60 rqA 300 dbB`. -/
def dupB : ServiceRequest :=
  { pk := 4, request_id := "RQ-2025-00002", pin := 7, service_type := "ESCORT",
    appointment_date := 300, pickup_location := "A", service_location := "B",
    description := "d", status := "PENDING", date_created := 60, views := 0,
    shortlists := 0 }

/-- The database state after that duplication. -/
def dbB' : DB := { dbB with nextPk := 5, requests := [rqA, dupB] }

/-- A second stored request, not referenced by the cascade scenario. -/
def rqB : ServiceRequest := { rqA with pk := 2, request_id := "RQ-2025-00002" }

/-- A view of `rqB`, surviving the deletion of request 1. -/
def viewB : RequestView := { pk := 6, request := 2, viewer := 9, viewed_at := 3 }

/-- A claim against `rqB`, surviving the deletion of request 1. -/
def claimB : FinancialClaim :=
  { pk := 11, request := 2, cv := 8, approved_by_pin := false,
    approved_by_csr := false, submitted_at := 4 }

/-- An item of `claimB`. -/
def itemB : ClaimItem :=
  { pk := 21, claim := 11, category := "transport", date_of_expense := 4,
    total_amount := 500, payment_method := "cash", description := "" }

/-- A receipt of `itemB`. -/
def receiptB : Receipt := { pk := 31, item := 21, image := "b.png", uploaded_at := 5 }

/-- A database populated across every child table, used to exercise the
cascade deletion of request 1. -/
def dbD : DB :=
  { nextPk := 40, requests := [rqA, rqB], pinPrefs := [],
    viewLogs := [{ pk := 2, request := 1, viewer := 9, viewed_at := 1 }, viewB],
    shortlistLogs := [{ pk := 5, request := 1, csr := 9, created_at := 2 }],
    matchRows := [{ pk := 3, request := 1, cv := 8, offered_at := 2,
                    accepted := none, accepted_at := none }],
    messageRows := [{ pk := 7, request := 1, sender := 7, text := "hi", sent_at := 3 }],
    claimRows := [{ pk := 10, request := 1, cv := 8, approved_by_pin := false,
                    approved_by_csr := false, submitted_at := 4 }, claimB],
    itemRows := [{ pk := 20, claim := 10, category := "meal", date_of_expense := 4,
                   total_amount := 700, payment_method := "cash", description := "" },
                 itemB],
    receiptRows := [{ pk := 30, item := 20, image := "a.png", uploaded_at := 5 }, receiptB],
    disputeRows := [{ pk := 8, request := 1, pin := 7, incorrect_amount := true,
                      incorrect_item := false, incorrect_receipt := false,
                      description := "x", created_at := 6 }] }

/-- A stored preference row for PIN user 7. -/
def prefP : PINPreference :=
  { pk := 1, user := 7, preferred_language := "en", preferred_volunteer_gender := "" }

/-- A database already holding `prefP`. -/
def dbP : DB := { emptyDB with nextPk := 3, pinPrefs := [prefP] }

/-- A stored match row for request 1. -/
def matchM : Match :=
  { pk := 1, request := 1, cv := 8, offered_at := 2, accepted := none,
    accepted_at := none }

/-- A database already holding `matchM`. -/
def dbM : DB := { emptyDB with nextPk := 3, matchRows := [matchM] }

/-- A row whose identifier is already set, re-saved in the immutability
scenario. -/
def rowX : ServiceRequest := { rqA with request_id := "RQ-2024-00007" }

/-- The state after inserting `rowX` into the empty database. -/
def dbX : DB := { emptyDB with requests := [rowX] }

/-! ### Lemmas: decimal rendering round-trips through `decodeChars` -/

theorem decDigitsAux_eq :
    ∀ (fuel n : Nat), n ≤ fuel → decDigitsAux fuel n = Nat.digits 10 n := by
  intro fuel
  induction fuel with
  | zero =>
    intro n hn
    have : n = 0 := Nat.le_zero.mp hn
    subst this
    simp [decDigitsAux]
  | succ f ih =>
    intro n hn
    match n with
    | 0 => simp [decDigitsAux]
    | m + 1 =>
      rw [decDigitsAux, Nat.digits_def' (b := 10) (by norm_num) (Nat.succ_pos m)]
      congr 1
      exact ih _ (Nat.le_of_lt_succ
        (Nat.lt_of_lt_of_le (Nat.div_lt_self (Nat.succ_pos m) (by norm_num)) hn))

theorem decDigits_eq (n : Nat) : decDigits n = Nat.digits 10 n :=
  decDigitsAux_eq n n (Nat.le_refl n)

theorem charVal_digitChar (d : Nat) (hd : d < 10) :
    charVal (Nat.digitChar d) = d := by
  interval_cases d <;> rfl

theorem foldr_horner (l : List Nat) (a : Nat) (hl : ∀ d ∈ l, d < 10) :
    ((l.map Nat.digitChar).foldr (fun c acc => acc * 10 + charVal c) a)
      = a * 10 ^ l.length + Nat.ofDigits 10 l := by
  induction l with
  | nil => simp [Nat.ofDigits]
  | cons d t ih =>
    simp only [List.map_cons, List.foldr_cons, List.length_cons]
    rw [ih (fun x hx => hl x (List.mem_cons_of_mem _ hx)),
      charVal_digitChar d (hl d (List.mem_cons_self _ _)), Nat.ofDigits_cons]
    ring

theorem decodeChars_replicate_zero (k : Nat) :
    List.foldl (fun acc c => acc * 10 + charVal c) 0 (List.replicate k '0') = 0 := by
  induction k with
  | zero => rfl
  | succ m ih => simpa [List.replicate_succ, charVal] using ih

/-- Reading back the zero-padded decimal rendering recovers the number. -/
theorem decodeChars_pad5 (n : Nat) : decodeChars (pad5Chars n) = n := by
  unfold decodeChars pad5Chars digitsStr
  rw [List.foldl_append, decodeChars_replicate_zero, List.map_reverse,
    List.foldl_reverse]
  rw [decDigits_eq]
  rw [foldr_horner _ 0 (fun d hd => Nat.digits_lt_base (by norm_num) hd)]
  simp [Nat.ofDigits_digits]

theorem pad5Chars_inj : Function.Injective pad5Chars := by
  intro a b h
  have := congrArg decodeChars h
  rwa [decodeChars_pad5, decodeChars_pad5] at this

theorem pad5_inj : Function.Injective pad5 := by
  intro a b h
  exact pad5Chars_inj (congrArg String.data h)

theorem strData_append (a b : String) : (a ++ b).data = a.data ++ b.data := by
  cases a
  cases b
  rfl

theorem suffixNat_encode (P : String) (x : Nat) :
    suffixNat P.length (P ++ pad5 x) = x := by
  unfold suffixNat
  rw [strData_append, show P.length = P.data.length from rfl,
    show (pad5 x).data = pad5Chars x from rfl, List.drop_left]
  exact decodeChars_pad5 x

theorem encode_inj (P : String) (a b : Nat) (h : P ++ pad5 a = P ++ pad5 b) :
    a = b := by
  have ha := suffixNat_encode P a
  have hb := suffixNat_encode P b
  rw [h] at ha
  rw [hb] at ha
  exact ha.symm

theorem listStarts_self_append (p r : List Char) :
    listStarts p (p ++ r) = true := by
  induction p with
  | nil => rfl
  | cons c cs ih => simp [listStarts, ih]

theorem strStarts_self_append (P r : String) : strStarts (P ++ r) P = true := by
  unfold strStarts
  rw [strData_append]
  exact listStarts_self_append _ _

/-- Digit-count bound: a number fits in `k` decimal digits exactly when it is
below `10 ^ k`. -/
theorem digits_len_le_iff (m k : Nat) :
    (Nat.digits 10 m).length ≤ k ↔ m < 10 ^ k := by
  constructor
  · intro h
    exact Nat.lt_of_lt_of_le (Nat.lt_base_pow_length_digits (by norm_num))
      (Nat.pow_le_pow_right (by norm_num) h)
  · intro h
    by_contra hk
    push_neg at hk
    have hm : m ≠ 0 := by
      intro h0
      subst h0
      simp at hk
    have h1 : 10 ^ (Nat.digits 10 m).length ≤ 10 * m :=
      Nat.base_pow_length_digits_le 10 m (by norm_num) hm
    have h2 : 10 ^ (k + 1) ≤ 10 ^ (Nat.digits 10 m).length :=
      Nat.pow_le_pow_right (by norm_num) hk
    rw [pow_succ] at h2
    omega

/-- Below 100000 the generated tail really is five characters wide. -/
theorem pad5_length (j : Nat) (hj : j < 100000) : (pad5 j).length = 5 := by
  have hlen : (digitsStr j).length ≤ 5 := by
    unfold digitsStr
    rw [List.length_map, List.length_reverse, decDigits_eq]
    have h5 : (100000 : Nat) = 10 ^ 5 := by norm_num
    exact (digits_len_le_iff j 5).mpr (h5 ▸ hj)
  show (pad5Chars j).length = 5
  unfold pad5Chars
  rw [List.length_append, List.length_replicate]
  omega

/-! ### Lemmas: inverting a successful insert -/

/-- A successful `save` of a fresh row with an empty identifier appended
exactly one row, carrying the generated identifier, and that identifier
clashed with no stored one. -/
theorem requestSave_new_inv (year : Nat) (row : ServiceRequest) (db : DB)
    (r' : ServiceRequest) (db' : DB)
    (hempty : row.request_id = "")
    (hpk : ∀ s ∈ db.requests, s.pk ≠ row.pk)
    (hok : requestSave year row db = (Except.ok r', db')) :
    r' = { row with request_id := genRequestId year db.requests } ∧
    db' = { db with requests := db.requests ++ [r'] } ∧
    ∀ s ∈ db.requests, s.request_id ≠ r'.request_id := by
  have h1 : (db.requests.any fun r => r.pk == row.pk) = false := by
    simp only [List.any_eq_false, beq_iff_eq]
    exact fun r hr => hpk r hr
  cases h2 : db.requests.any (fun r => r.request_id == genRequestId year db.requests) with
  | true =>
    rw [requestSave] at hok
    simp only [hempty, if_pos] at hok
    simp only [h1, h2] at hok
    simp at hok
  | false =>
    rw [requestSave] at hok
    simp only [hempty, if_pos] at hok
    simp only [h1, h2] at hok
    simp only [Bool.false_eq_true, if_false, Prod.mk.injEq, Except.ok.injEq] at hok
    obtain ⟨hr', hdb'⟩ := hok
    subst hr'
    refine ⟨rfl, hdb'.symm, ?_⟩
    intro s hs
    have := List.any_eq_false.mp h2 s hs
    simpa using this

/-- A successful `objects.create(...)` appended exactly one row with the
generated identifier and a fresh primary key, and advanced the key counter. -/
theorem createRequest_ok_inv (year : Nat) (p : CreateParams) (db : DB)
    (copy : ServiceRequest) (db' : DB)
    (hpk : ∀ s ∈ db.requests, s.pk ≠ db.nextPk)
    (hok : createRequest year p db = (Except.ok copy, db')) :
    copy = { newRequest db.nextPk p with request_id := genRequestId year db.requests } ∧
    db' = { db with nextPk := db.nextPk + 1, requests := db.requests ++ [copy] } ∧
    ∀ s ∈ db.requests, s.request_id ≠ copy.request_id := by
  unfold createRequest at hok
  cases hsave : requestSave year (newRequest db.nextPk p) db with
  | mk res dbs =>
    rw [hsave] at hok
    cases res with
    | error e => simp at hok
    | ok r =>
      simp only [Prod.mk.injEq, Except.ok.injEq] at hok
      obtain ⟨hr, hdb'⟩ := hok
      rw [hr] at hsave
      have hinv := requestSave_new_inv year (newRequest db.nextPk p) db copy dbs
        rfl (fun s hs => hpk s hs) hsave
      obtain ⟨hcopy, hdbs, huniq⟩ := hinv
      subst hdbs
      exact ⟨hcopy, hdb'.symm, huniq⟩

/-- Running `objects.create(...)` when the generated identifier is free:
the insert succeeds and the state after it is computed explicitly. -/
theorem createRequest_run (year : Nat) (p : CreateParams) (db : DB)
    (hpk : ∀ s ∈ db.requests, s.pk ≠ db.nextPk)
    (huniq : ∀ s ∈ db.requests, s.request_id ≠ genRequestId year db.requests) :
    createRequest year p db =
      (Except.ok { newRequest db.nextPk p with
                   request_id := genRequestId year db.requests },
       { db with
         nextPk := db.nextPk + 1,
         requests := db.requests ++
           [{ newRequest db.nextPk p with
              request_id := genRequestId year db.requests }] }) := by
  have h1 : (db.requests.any fun r => r.pk == db.nextPk) = false := by
    simp only [List.any_eq_false, beq_iff_eq]
    exact fun r hr => hpk r hr
  have h2 : (db.requests.any fun r => r.request_id == genRequestId year db.requests) = false := by
    simp only [List.any_eq_false, beq_iff_eq]
    exact fun r hr => huniq r hr
  simp [createRequest, requestSave, newRequest, h1, h2]

/-- Induction step for sequential creation: starting from a state whose
same-year identifiers are exactly `1..k` (as zero-padded tails), `n` further
creations all succeed and append identifiers `k+1, …, k+n` in order. -/
theorem createMany_go (year : Nat) :
    ∀ (ps : List CreateParams) (db : DB) (k : Nat),
      (∀ r ∈ db.requests, r.pk < db.nextPk) →
      (db.requests.filter (fun r => strStarts r.request_id (rqPfx year))).length = k →
      (∀ r ∈ db.requests, ∀ j, r.request_id = rqPfx year ++ pad5 j → j ≤ k) →
      ∃ (rows : List ServiceRequest) (db' : DB),
        createMany year ps db = some db' ∧
        db'.requests = db.requests ++ rows ∧
        rows.map (fun r => r.request_id) =
          (List.range ps.length).map (fun i => rqPfx year ++ pad5 (k + i + 1)) := by
  intro ps
  induction ps with
  | nil =>
    intro db k h1 h2 h3
    exact ⟨[], db, rfl, by simp, by simp⟩
  | cons p rest ih =>
    intro db k h1 h2 h3
    have hid : genRequestId year db.requests = rqPfx year ++ pad5 (k + 1) := by
      unfold genRequestId
      rw [h2]
    have huniq : ∀ s ∈ db.requests, s.request_id ≠ genRequestId year db.requests := by
      intro s hs hcontra
      rw [hid] at hcontra
      exact absurd (h3 s hs (k + 1) hcontra) (by omega)
    have hrun := createRequest_run year p db (fun s hs => Nat.ne_of_lt (h1 s hs)) huniq
    set row1 : ServiceRequest :=
      { newRequest db.nextPk p with request_id := genRequestId year db.requests }
      with hrow1
    set db1 : DB :=
      { db with nextPk := db.nextPk + 1, requests := db.requests ++ [row1] }
      with hdb1
    have hrow1id : row1.request_id = rqPfx year ++ pad5 (k + 1) := hid
    have hrow1pk : row1.pk = db.nextPk := rfl
    have h1' : ∀ r ∈ db1.requests, r.pk < db1.nextPk := by
      intro r hr
      rcases List.mem_append.mp hr with h | h
      · exact Nat.lt_succ_of_lt (h1 r h)
      · rw [List.mem_singleton.mp h, hrow1pk]
        exact Nat.lt_succ_self _
    have hstart : strStarts row1.request_id (rqPfx year) = true := by
      rw [hrow1id]
      exact strStarts_self_append _ _
    have h2' :
        (db1.requests.filter (fun r => strStarts r.request_id (rqPfx year))).length
          = k + 1 := by
      show ((db.requests ++ [row1]).filter
        (fun r => strStarts r.request_id (rqPfx year))).length = k + 1
      rw [List.filter_append, List.length_append, h2]
      simp [hstart]
    have h3' : ∀ r ∈ db1.requests, ∀ j,
        r.request_id = rqPfx year ++ pad5 j → j ≤ k + 1 := by
      intro r hr j hj
      rcases List.mem_append.mp hr with h | h
      · exact Nat.le_succ_of_le (h3 r h j hj)
      · rw [List.mem_singleton.mp h, hrow1id] at hj
        rw [encode_inj (rqPfx year) j (k + 1) hj.symm]
    obtain ⟨rows', db'', hcm, hreq, hids⟩ := ih db1 (k + 1) h1' h2' h3'
    refine ⟨row1 :: rows', db'', ?_, ?_, ?_⟩
    · show createMany year (p :: rest) db = some db''
      rw [createMany, hrun]
      exact hcm
    · rw [hreq, hdb1]
      simp
    · simp only [List.map_cons, hids, List.length_cons, List.range_succ_eq_map,
        List.map_map, hrow1id]
      congr 1
      apply List.map_congr_left
      intro i _
      simp only [Function.comp]
      congr 2
      omega

/-! ### Claim theorems -/

/-- C1: for every sequence of sequential (non-concurrent) `ServiceRequest`
creations within the same calendar year (starting from a state with no
identifier of that year), the generated `request_id`s are
`RQ-<year>-` followed by the zero-padded count-plus-one tail, pairwise
distinct, and strictly increasing in numeric suffix: the i-th creation
yields tail `i+1`, so the first two of 2025 are `RQ-2025-00001` and
`RQ-2025-00002`. -/
theorem request_id_sequential_generation (year : Nat) (ps : List CreateParams)
    (db : DB)
    (hpk : ∀ r ∈ db.requests, r.pk < db.nextPk)
    (hyear : ∀ r ∈ db.requests, strStarts r.request_id (rqPfx year) = false) :
    ∃ rows db',
      createMany year ps db = some db' ∧
      db'.requests = db.requests ++ rows ∧
      rows.map (fun r => r.request_id) =
        (List.range ps.length).map (fun i => rqPfx year ++ pad5 (i + 1)) ∧
      (rows.map (fun r => r.request_id)).Nodup ∧
      rows.map (fun r => suffixNat (rqPfx year).length r.request_id) =
        (List.range ps.length).map (fun i => i + 1) ∧
      List.Chain' (· < ·)
        (rows.map (fun r => suffixNat (rqPfx year).length r.request_id)) ∧
      (ps.length ≤ 99999 →
        ∀ r ∈ rows, r.request_id.length = (rqPfx year).length + 5) := by
  have h2 : (db.requests.filter
      (fun r => strStarts r.request_id (rqPfx year))).length = 0 := by
    rw [List.length_eq_zero]
    rw [List.filter_eq_nil_iff]
    intro r hr
    simp [hyear r hr]
  have h3 : ∀ r ∈ db.requests, ∀ j,
      r.request_id = rqPfx year ++ pad5 j → j ≤ 0 := by
    intro r hr j hj
    have hfalse := hyear r hr
    rw [hj, strStarts_self_append] at hfalse
    cases hfalse
  obtain ⟨rows, db', hcm, hreq, hids⟩ := createMany_go year ps db 0 hpk h2 h3
  simp only [Nat.zero_add] at hids
  have hsuffix : rows.map (fun r => suffixNat (rqPfx year).length r.request_id) =
      (List.range ps.length).map (fun i => i + 1) := by
    have : rows.map (fun r => suffixNat (rqPfx year).length r.request_id) =
        (rows.map (fun r => r.request_id)).map (suffixNat (rqPfx year).length) := by
      rw [List.map_map]
      rfl
    rw [this, hids, List.map_map]
    apply List.map_congr_left
    intro i _
    simp only [Function.comp]
    exact suffixNat_encode (rqPfx year) (i + 1)
  refine ⟨rows, db', hcm, hreq, hids, ?_, hsuffix, ?_, ?_⟩
  · rw [hids]
    refine List.Nodup.map ?_ (List.nodup_range _)
    intro a b hab
    have := encode_inj (rqPfx year) (a + 1) (b + 1) hab
    omega
  · rw [hsuffix]
    exact ((List.pairwise_lt_range _).map _ (fun a b h => by omega)).chain'
  · intro hn r hr
    have : r.request_id ∈ rows.map (fun r => r.request_id) :=
      List.mem_map_of_mem _ hr
    rw [hids] at this
    obtain ⟨i, hi, hid⟩ := List.mem_map.mp this
    have hirange := List.mem_range.mp hi
    rw [← hid]
    show (rqPfx year ++ pad5 (i + 1)).length = (rqPfx year).length + 5
    rw [String.length_append, pad5_length (i + 1) (by omega)]

/-- C1 witness: two creations in 2025 starting from the empty database yield
exactly `RQ-2025-00001` then `RQ-2025-00002`. -/
theorem request_id_sequential_generation_witness :
    ∃ db', createMany 2025 [pA, pB] emptyDB = some db' ∧
      db'.requests.map (fun r => r.request_id) =
        ["RQ-2025-00001", "RQ-2025-00002"] := by
  obtain ⟨rows, db', hcm, hreq, hids, -, -, -, -⟩ :=
    request_id_sequential_generation 2025 [pA, pB] emptyDB
      (by decide) (by decide)
  refine ⟨db', hcm, ?_⟩
  rw [hreq]
  show (emptyDB.requests ++ rows).map (fun r => r.request_id) = _
  rw [show emptyDB.requests = [] from rfl, List.nil_append, hids]
  decide

/-- C2: a successful `duplicate(r, d)` returns a copy with a different
identifier, the same `pin`, `service_type`, locations and description,
appointment date `d`, status `PENDING` and a fresh creation timestamp, and
the source row (every field of it) is still stored unchanged. -/
theorem duplicate_spec (year : Nat) (now : Int) (r : ServiceRequest) (d : Int)
    (db : DB) (copy : ServiceRequest) (db' : DB)
    (hr : r ∈ db.requests)
    (hpk : ∀ s ∈ db.requests, s.pk ≠ db.nextPk)
    (hok : duplicate year now r d db = (Except.ok copy, db')) :
    copy.request_id ≠ r.request_id ∧ copy.pin = r.pin ∧
    copy.service_type = r.service_type ∧
    copy.pickup_location = r.pickup_location ∧
    copy.service_location = r.service_location ∧
    copy.description = r.description ∧
    copy.appointment_date = d ∧ copy.status = STATUS_PENDING ∧
    copy.date_created = now ∧
    db'.requests = db.requests ++ [copy] ∧ r ∈ db'.requests := by
  unfold duplicate at hok
  obtain ⟨hcopy, hdb', huniq⟩ := createRequest_ok_inv year _ db copy db' hpk hok
  have hreqs : db'.requests = db.requests ++ [copy] := by rw [hdb']
  refine ⟨fun h => (huniq r hr) h.symm, ?_, ?_, ?_, ?_, ?_, ?_, ?_, ?_, hreqs, ?_⟩
  · simp [hcopy, newRequest]
  · simp [hcopy, newRequest]
  · simp [hcopy, newRequest]
  · simp [hcopy, newRequest]
  · simp [hcopy, newRequest]
  · simp [hcopy, newRequest]
  · simp [hcopy, newRequest]
  · simp [hcopy, newRequest]
  · rw [hreqs]
    exact List.mem_append_left _ hr

/-- C2 witness: duplicating the stored `rqA` at appointment date 200 yields
`dupA`, whose identifier differs and whose status is reset. -/
theorem duplicate_spec_witness :
    dupA.request_id ≠ rqA.request_id ∧ dupA.status = STATUS_PENDING ∧
    dupA.appointment_date = 200 ∧ dbA'.requests = dbA.requests ++ [dupA] := by
  obtain ⟨h1, -, -, -, -, -, h7, h8, -, h10, -⟩ :=
    duplicate_spec 2025 50 rqA 200 dbA dupA dbA' (by decide) (by decide)
      (by decide)
  exact ⟨h1, h8, h7, h10⟩

/-- C3: `OTPToken.is_expired` holds exactly when the current time strictly
exceeds `created_at` plus ten minutes (600 seconds): false at creation,
false at +599s, still false at exactly +600s, true at +601s. -/
theorem otp_expiry_boundary (t : OTPToken) :
    (∀ now : Int, t.is_expired now = true ↔ now > t.created_at + 600) ∧
    t.is_expired t.created_at = false ∧
    t.is_expired (t.created_at + 599) = false ∧
    t.is_expired (t.created_at + 600) = false ∧
    t.is_expired (t.created_at + 601) = true := by
  refine ⟨fun now => by simp [OTPToken.is_expired], ?_, ?_, ?_, ?_⟩ <;>
      simp only [OTPToken.is_expired, decide_eq_true_eq, decide_eq_false_iff_not] <;>
    omega

/-- C4: deleting a `ServiceRequest` removes every `RequestView`, `Shortlist`,
`Match`, `Message`, `FinancialClaim` and `Dispute` row referencing it, and
transitively the `ClaimItem`s of the removed claims and the `Receipt`s of
those items, while every row not (transitively) referencing the request
survives. -/
theorem delete_request_cascades (db : DB) (rq : Nat) :
    (∀ r ∈ (deleteRequest rq db).requests, r.pk ≠ rq) ∧
    (∀ v ∈ (deleteRequest rq db).viewLogs, v.request ≠ rq) ∧
    (∀ s ∈ (deleteRequest rq db).shortlistLogs, s.request ≠ rq) ∧
    (∀ m ∈ (deleteRequest rq db).matchRows, m.request ≠ rq) ∧
    (∀ m ∈ (deleteRequest rq db).messageRows, m.request ≠ rq) ∧
    (∀ c ∈ (deleteRequest rq db).claimRows, c.request ≠ rq) ∧
    (∀ x ∈ (deleteRequest rq db).disputeRows, x.request ≠ rq) ∧
    (∀ it ∈ (deleteRequest rq db).itemRows, ∀ c ∈ db.claimRows,
      c.request = rq → it.claim ≠ c.pk) ∧
    (∀ rc ∈ (deleteRequest rq db).receiptRows, ∀ it ∈ db.itemRows,
      (∃ c ∈ db.claimRows, c.request = rq ∧ it.claim = c.pk) → rc.item ≠ it.pk) ∧
    (∀ v ∈ db.viewLogs, v.request ≠ rq → v ∈ (deleteRequest rq db).viewLogs) ∧
    (∀ s ∈ db.shortlistLogs, s.request ≠ rq →
      s ∈ (deleteRequest rq db).shortlistLogs) ∧
    (∀ m ∈ db.matchRows, m.request ≠ rq → m ∈ (deleteRequest rq db).matchRows) ∧
    (∀ m ∈ db.messageRows, m.request ≠ rq →
      m ∈ (deleteRequest rq db).messageRows) ∧
    (∀ c ∈ db.claimRows, c.request ≠ rq → c ∈ (deleteRequest rq db).claimRows) ∧
    (∀ x ∈ db.disputeRows, x.request ≠ rq →
      x ∈ (deleteRequest rq db).disputeRows) ∧
    (∀ it ∈ db.itemRows,
      (∀ c ∈ db.claimRows, c.request = rq → it.claim ≠ c.pk) →
      it ∈ (deleteRequest rq db).itemRows) ∧
    (∀ rc ∈ db.receiptRows,
      (∀ it ∈ db.itemRows,
        (∃ c ∈ db.claimRows, c.request = rq ∧ it.claim = c.pk) →
        rc.item ≠ it.pk) →
      rc ∈ (deleteRequest rq db).receiptRows) := by
  refine ⟨?_, ?_, ?_, ?_, ?_, ?_, ?_, ?_, ?_, ?_, ?_, ?_, ?_, ?_, ?_, ?_, ?_⟩
  · intro x hx
    rw [deleteRequest] at hx
    simp only [List.mem_filter, Bool.not_eq_eq_eq_not, Bool.not_true,
      beq_eq_false_iff_ne, ne_eq] at hx
    exact hx.2
  · intro x hx
    rw [deleteRequest] at hx
    simp only [List.mem_filter, Bool.not_eq_eq_eq_not, Bool.not_true,
      beq_eq_false_iff_ne, ne_eq] at hx
    exact hx.2
  · intro x hx
    rw [deleteRequest] at hx
    simp only [List.mem_filter, Bool.not_eq_eq_eq_not, Bool.not_true,
      beq_eq_false_iff_ne, ne_eq] at hx
    exact hx.2
  · intro x hx
    rw [deleteRequest] at hx
    simp only [List.mem_filter, Bool.not_eq_eq_eq_not, Bool.not_true,
      beq_eq_false_iff_ne, ne_eq] at hx
    exact hx.2
  · intro x hx
    rw [deleteRequest] at hx
    simp only [List.mem_filter, Bool.not_eq_eq_eq_not, Bool.not_true,
      beq_eq_false_iff_ne, ne_eq] at hx
    exact hx.2
  · intro x hx
    rw [deleteRequest] at hx
    simp only [List.mem_filter, Bool.not_eq_eq_eq_not, Bool.not_true,
      beq_eq_false_iff_ne, ne_eq] at hx
    exact hx.2
  · intro x hx
    rw [deleteRequest] at hx
    simp only [List.mem_filter, Bool.not_eq_eq_eq_not, Bool.not_true,
      beq_eq_false_iff_ne, ne_eq] at hx
    exact hx.2
  · intro it hit c hc hcrq
    rw [deleteRequest] at hit
    have hit' := List.mem_filter.mp hit
    have hall : ∀ x ∈ db.claimRows, x.request = rq → ¬x.pk = it.claim := by
      simpa using hit'.2
    intro hcl
    exact hall c hc hcrq hcl.symm
  · intro rc hrc it hit ⟨c, hc, hcrq, hclaim⟩
    rw [deleteRequest] at hrc
    have hrc' := List.mem_filter.mp hrc
    have hall : ∀ x ∈ db.itemRows, ∀ y ∈ db.claimRows,
        y.request = rq → y.pk = x.claim → ¬x.pk = rc.item := by
      simpa using hrc'.2
    intro hitem
    exact hall it hit c hc hcrq hclaim.symm hitem.symm
  · intro x hx hne
    rw [deleteRequest]
    exact List.mem_filter.mpr ⟨hx, by simp [hne]⟩
  · intro x hx hne
    rw [deleteRequest]
    exact List.mem_filter.mpr ⟨hx, by simp [hne]⟩
  · intro x hx hne
    rw [deleteRequest]
    exact List.mem_filter.mpr ⟨hx, by simp [hne]⟩
  · intro x hx hne
    rw [deleteRequest]
    exact List.mem_filter.mpr ⟨hx, by simp [hne]⟩
  · intro x hx hne
    rw [deleteRequest]
    exact List.mem_filter.mpr ⟨hx, by simp [hne]⟩
  · intro x hx hne
    rw [deleteRequest]
    exact List.mem_filter.mpr ⟨hx, by simp [hne]⟩
  · intro it hit hkeep
    rw [deleteRequest]
    refine List.mem_filter.mpr ⟨hit, ?_⟩
    have hfalse : ((db.claimRows.filter (fun c => c.request == rq)).any
        (fun c => c.pk == it.claim)) = false := by
      rw [List.any_eq_false]
      intro c hcmem
      have hc := List.mem_filter.mp hcmem
      have hcrq : c.request = rq := by simpa using hc.2
      intro hpk
      have hcl : c.pk = it.claim := by simpa using hpk
      exact hkeep c hc.1 hcrq hcl.symm
    rw [hfalse]
    rfl
  · intro rc hrc hkeep
    rw [deleteRequest]
    refine List.mem_filter.mpr ⟨hrc, ?_⟩
    have hfalse : ((db.itemRows.filter
        (fun it => (db.claimRows.filter (fun c => c.request == rq)).any
          (fun c => c.pk == it.claim))).any (fun it => it.pk == rc.item)) = false := by
      rw [List.any_eq_false]
      intro it hitmem
      have hit := List.mem_filter.mp hitmem
      obtain ⟨c, hcmem, hcpk⟩ := List.any_eq_true.mp hit.2
      have hc := List.mem_filter.mp hcmem
      have hcrq : c.request = rq := by simpa using hc.2
      have hclaim : it.claim = c.pk := by
        have hcl : c.pk = it.claim := by simpa using hcpk
        omega
      intro hpk
      have hpk' : it.pk = rc.item := by simpa using hpk
      exact hkeep it hit.1 ⟨c, hc.1, hcrq, hclaim⟩ hpk'.symm
    rw [hfalse]
    rfl

/-- C4 witness: deleting request 1 in the populated `dbD` keeps the view and
the receipt that hang off request 2. -/
theorem delete_request_cascades_witness :
    viewB ∈ (deleteRequest 1 dbD).viewLogs ∧
    receiptB ∈ (deleteRequest 1 dbD).receiptRows := by
  obtain ⟨-, -, -, -, -, -, -, -, -, hv, -, -, -, -, -, -, hrc⟩ :=
    delete_request_cascades dbD 1
  exact ⟨hv viewB (by decide) (by decide), hrc receiptB (by decide) (by decide)⟩

/-- C5: when a `PINPreference` row for a user already exists, creating a
second one fails with `UniquenessError` and leaves the database unchanged. -/
theorem second_pinpreference_fails (u : Nat) (lang gender : String) (db : DB)
    (p : PINPreference) (hp : p ∈ db.pinPrefs) (hu : p.user = u) :
    createPINPreference u lang gender db =
      (Except.error DBError.UniquenessError, db) := by
  unfold createPINPreference
  rw [if_pos]
  exact List.any_eq_true.mpr ⟨p, hp, by simp [hu]⟩

/-- C5 witness: user 7 already owns `prefP` in `dbP`, so a second preference
fails and the state is exactly `dbP` still. -/
theorem second_pinpreference_fails_witness :
    createPINPreference 7 "fr" "female" dbP =
      (Except.error DBError.UniquenessError, dbP) :=
  second_pinpreference_fails 7 "fr" "female" dbP prefP (by decide) (by decide)

/-- C6: when a `Match` row for a request already exists, creating a second
one fails with `UniquenessError` and leaves the database unchanged. -/
theorem second_match_fails (rq cv : Nat) (now : Int) (db : DB)
    (m : Match) (hm : m ∈ db.matchRows) (hrq : m.request = rq) :
    createMatch rq cv now db = (Except.error DBError.UniquenessError, db) := by
  unfold createMatch
  rw [if_pos]
  exact List.any_eq_true.mpr ⟨m, hm, by simp [hrq]⟩

/-- C6 witness: request 1 already has `matchM` in `dbM`, so a second match
fails and the state is exactly `dbM` still. -/
theorem second_match_fails_witness :
    createMatch 1 9 5 dbM = (Except.error DBError.UniquenessError, dbM) :=
  second_match_fails 1 9 5 dbM matchM (by decide) (by decide)

/-- C7 counterexample: validation of `total_amount` is NOT "accept exactly
the non-negative values": 10000000000 cents (100000000.00, eleven digits)
is non-negative, yet the `max_digits=10` shape check of the field rejects
it. -/
theorem total_amount_nonneg_only_counterexample :
    (0 : Int) ≤ 10000000000 ∧ validTotalAmount 10000000000 = false := by
  constructor
  · decide
  · decide

/-- C7 (amended): validation of `ClaimItem.total_amount` accepts a value
exactly when it is non-negative and fits the field's ten digits (under
10^10 cents, i.e. under 100000000.00); in particular -0.01 is rejected and
0.00 is accepted. -/
theorem total_amount_validation_amended (v : Int) :
    (validTotalAmount v = true ↔ 0 ≤ v ∧ v < 10000000000) ∧
    validTotalAmount (-1) = false ∧ validTotalAmount 0 = true := by
  refine ⟨?_, by decide, by decide⟩
  unfold validTotalAmount decimalDigitsCount
  simp only [Bool.and_eq_true, decide_eq_true_eq]
  have h10 : (10 : Nat) ^ 10 = 10000000000 := by norm_num
  constructor
  · rintro ⟨h0, hd⟩
    refine ⟨h0, ?_⟩
    rw [decDigits_eq] at hd
    have := (digits_len_le_iff v.natAbs 10).mp (le_trans (le_max_left _ _) hd)
    omega
  · rintro ⟨h0, hv⟩
    refine ⟨h0, ?_⟩
    rw [decDigits_eq]
    have hlt : v.natAbs < 10 ^ 10 := by omega
    have := (digits_len_le_iff v.natAbs 10).mpr hlt
    omega

/-- C8: once `request_id` is non-empty, `save` leaves the row — in
particular its identifier — unchanged. -/
theorem request_id_immutable_on_save (year : Nat) (row r' : ServiceRequest)
    (db db' : DB) (hne : row.request_id ≠ "")
    (hok : requestSave year row db = (Except.ok r', db')) :
    r' = row ∧ r'.request_id = row.request_id := by
  rw [requestSave] at hok
  simp only [if_neg hne] at hok
  split at hok
  · split at hok
    · simp at hok
    · simp only [Prod.mk.injEq, Except.ok.injEq] at hok
      exact ⟨hok.1.symm, by rw [hok.1]⟩
  · split at hok
    · simp at hok
    · simp only [Prod.mk.injEq, Except.ok.injEq] at hok
      exact ⟨hok.1.symm, by rw [hok.1]⟩

/-- C8 witness: re-saving `rowX`, whose identifier `RQ-2024-00007` is
already set, stores it verbatim. -/
theorem request_id_immutable_on_save_witness :
    requestSave 2025 rowX emptyDB = (Except.ok rowX, dbX) ∧ rowX = rowX := by
  have hok : requestSave 2025 rowX emptyDB = (Except.ok rowX, dbX) := by decide
  exact ⟨hok,
    (request_id_immutable_on_save 2025 rowX rowX emptyDB dbX (by decide) hok).1⟩

/-- C9: create two requests in 2025, delete the first, create a third: the
count-plus-one rule regenerates the still-stored tail 00002, so the third
creation fails with a uniqueness violation even without concurrency and the
state is unchanged. -/
theorem delete_then_create_id_collision :
    (createRequest 2025 pA emptyDB).1.map (fun r => r.request_id) =
      Except.ok "RQ-2025-00001" ∧
    (createRequest 2025 pB db9a).1.map (fun r => r.request_id) =
      Except.ok "RQ-2025-00002" ∧
    db9c.requests.map (fun r => r.request_id) = ["RQ-2025-00002"] ∧
    genRequestId 2025 db9c.requests = "RQ-2025-00002" ∧
    (createRequest 2025 pC db9c).1 = Except.error DBError.UniquenessError ∧
    (createRequest 2025 pC db9c).2 = db9c := by
  refine ⟨by decide, by decide, by decide, by decide, by decide, by decide⟩

/-- C10: a successful `duplicate` starts its copy with zeroed `views` and
`shortlists` counters, touches no child table, and the fresh copy has no
associated view, shortlist, match, message, claim or dispute rows. -/
theorem duplicate_has_no_children (year : Nat) (now : Int)
    (r : ServiceRequest) (d : Int) (db : DB) (copy : ServiceRequest)
    (db' : DB)
    (hpk : ∀ s ∈ db.requests, s.pk ≠ db.nextPk)
    (hv : ∀ v ∈ db.viewLogs, v.request ≠ db.nextPk)
    (hsl : ∀ s ∈ db.shortlistLogs, s.request ≠ db.nextPk)
    (hmt : ∀ m ∈ db.matchRows, m.request ≠ db.nextPk)
    (hmsg : ∀ m ∈ db.messageRows, m.request ≠ db.nextPk)
    (hcl : ∀ c ∈ db.claimRows, c.request ≠ db.nextPk)
    (hdp : ∀ x ∈ db.disputeRows, x.request ≠ db.nextPk)
    (hok : duplicate year now r d db = (Except.ok copy, db')) :
    copy.views = 0 ∧ copy.shortlists = 0 ∧
    db'.viewLogs = db.viewLogs ∧ db'.shortlistLogs = db.shortlistLogs ∧
    db'.matchRows = db.matchRows ∧ db'.messageRows = db.messageRows ∧
    db'.claimRows = db.claimRows ∧ db'.itemRows = db.itemRows ∧
    db'.receiptRows = db.receiptRows ∧ db'.disputeRows = db.disputeRows ∧
    (∀ v ∈ db'.viewLogs, v.request ≠ copy.pk) ∧
    (∀ s ∈ db'.shortlistLogs, s.request ≠ copy.pk) ∧
    (∀ m ∈ db'.matchRows, m.request ≠ copy.pk) ∧
    (∀ m ∈ db'.messageRows, m.request ≠ copy.pk) ∧
    (∀ c ∈ db'.claimRows, c.request ≠ copy.pk) ∧
    (∀ x ∈ db'.disputeRows, x.request ≠ copy.pk) := by
  unfold duplicate at hok
  obtain ⟨hcopy, hdb', -⟩ := createRequest_ok_inv year _ db copy db' hpk hok
  have hcpk : copy.pk = db.nextPk := by simp [hcopy, newRequest]
  have e1 : db'.viewLogs = db.viewLogs := by rw [hdb']
  have e2 : db'.shortlistLogs = db.shortlistLogs := by rw [hdb']
  have e3 : db'.matchRows = db.matchRows := by rw [hdb']
  have e4 : db'.messageRows = db.messageRows := by rw [hdb']
  have e5 : db'.claimRows = db.claimRows := by rw [hdb']
  have e6 : db'.itemRows = db.itemRows := by rw [hdb']
  have e7 : db'.receiptRows = db.receiptRows := by rw [hdb']
  have e8 : db'.disputeRows = db.disputeRows := by rw [hdb']
  refine ⟨by simp [hcopy, newRequest], by simp [hcopy, newRequest],
    e1, e2, e3, e4, e5, e6, e7, e8, ?_, ?_, ?_, ?_, ?_, ?_⟩
  · intro x hx
    rw [e1] at hx
    rw [hcpk]
    exact hv x hx
  · intro x hx
    rw [e2] at hx
    rw [hcpk]
    exact hsl x hx
  · intro x hx
    rw [e3] at hx
    rw [hcpk]
    exact hmt x hx
  · intro x hx
    rw [e4] at hx
    rw [hcpk]
    exact hmsg x hx
  · intro x hx
    rw [e5] at hx
    rw [hcpk]
    exact hcl x hx
  · intro x hx
    rw [e8] at hx
    rw [hcpk]
    exact hdp x hx

/-- C10 witness: duplicating `rqA` inside `dbB` (which carries a view, a
shortlist and a match for it) yields `dupB` with zeroed counters and an
untouched view table. -/
theorem duplicate_has_no_children_witness :
    dupB.views = 0 ∧ dupB.shortlists = 0 ∧ dbB'.viewLogs = dbB.viewLogs := by
  obtain ⟨h1, h2, h3, -⟩ :=
    duplicate_has_no_children 2025 60 rqA 300 dbB dupB dbB'
      (by decide) (by decide) (by decide) (by decide) (by decide) (by decide)
      (by decide) (by decide)
  exact ⟨h1, h2, h3⟩

end Models
